import Mathlib

/-!
# Verification of the FirebaseFlex adapter (`addon/adapters/firebase-flex.js`)

A shallow embedding of the record/query synchronization core of the
`emberfire-utils` FirebaseFlex adapter, together with theorems settling the
frozen claims about it.

Modelling conventions:

* JavaScript objects used as string-keyed maps become association lists
  (`JsObj`), with JS property-assignment semantics (`JsObj.set` replaces the
  first occurrence of the key in place, otherwise appends, preserving
  insertion order) and `hasOwnProperty` becoming `JsObj.hasOwn`.
* A Firebase reference is modelled by its absolute URL together with the URL
  of its database root (`FirebaseRef`).  Per the Firebase JS SDK contract,
  `ref.toString()` of the root reference ends with a trailing slash while a
  non-root reference's URL does not, so `url.drop rootUrl.length` is the
  slash-free relative path (matching `parseFirebaseReferencePath` in the
  source).
* The injected `firebase` service object is the database root reference;
  `child` concatenates the relative path onto it.
* Optional values / absent JS object properties become `Option`.
* Asynchronous callbacks become explicit event processing: the one-shot
  `value` callback of `findRecord` is a state-transition function over the
  events Firebase may deliver, and an RSVP promise is a write-once
  `Option Outcome` cell (the first `resolve`/`reject` wins).
* The FastBoot (server-rendering) environment test `isInFastBoot` becomes a
  boolean flag threaded explicitly.
* External collaborators stay parameters: `camelize(pluralize(modelName))`
  from ember-string/ember-inflector is an arbitrary function argument
  `parse`, and the serializer's output is a field of the snapshot.
-/

/-- A JavaScript object used as a string-keyed map: an association list in
insertion order.  Keys are unique in any object produced by `JsObj.set`. -/
abbrev JsObj (V : Type) := List (String × V)

/-- Property read `o[k]`: the value at the first occurrence of key `k`. -/
def JsObj.get {V : Type} : JsObj V → String → Option V
  | [], _ => none
  | (k', v') :: rest, k => if k' = k then some v' else JsObj.get rest k

/-- Property write `o[k] = v`: replaces the value at an existing key in
place (preserving insertion order), otherwise appends the new pair. -/
def JsObj.set {V : Type} : JsObj V → String → V → JsObj V
  | [], k, v => [(k, v)]
  | (k', v') :: rest, k, v =>
    if k' = k then (k', v) :: rest else (k', v') :: JsObj.set rest k v

/-- `o.hasOwnProperty(k)`. -/
def JsObj.hasOwn {V : Type} (o : JsObj V) (k : String) : Bool :=
  (o.get k).isSome

/-- `Object.assign(o, src)`: every entry of `src` is written into `o`,
left to right. -/
def JsObj.assign {V : Type} (o src : JsObj V) : JsObj V :=
  src.foldl (fun acc p => acc.set p.1 p.2) o

/-- JS `s.substring(n)` on code units (all our strings are ASCII). -/
def strDrop (s : String) (n : Nat) : String :=
  ⟨s.data.drop n⟩

/-- JS `s.split('/')`. -/
def splitOnSlash (s : String) : List String :=
  (s.data.foldr
    (fun c segs =>
      match segs with
      | seg :: rest => if c = '/' then [] :: seg :: rest else (c :: seg) :: rest
      | [] => [[c]])
    ([[]] : List (List Char))).map fun l => ⟨l⟩

/-- JS `nodes.join('/')`. -/
def joinWithSlash : List String → String
  | [] => ""
  | [s] => s
  | s :: rest => s ++ "/" ++ joinWithSlash rest

/-- A Firebase database reference, modelled by `toString()` of the
reference itself and of its database root.  The root URL carries the
trailing slash the SDK gives it. -/
structure FirebaseRef where
  url : String
  rootUrl : String
deriving DecidableEq

/-- `firebase.child(path)` on the (root) service reference. -/
def FirebaseRef.child (r : FirebaseRef) (path : String) : FirebaseRef :=
  { url := r.url ++ path, rootUrl := r.rootUrl }

/-- Source `parseFirebaseReferencePath`:
`ref.toString().substring(ref.root.toString().length)`. -/
def parseFirebaseReferencePath (ref : FirebaseRef) : String :=
  strDrop ref.url ref.rootUrl.length

/-- Adapter property `innerReferencePathName` (default value). -/
def innerReferencePathName : String := "_innerReferencePath"

/-- A Firebase `DataSnapshot`: its key, its decoded value object, and the
URLs of `snapshot.ref` and `snapshot.ref.root`. -/
structure DataSnapshot where
  key : String
  val : JsObj String
  refUrl : String
  rootUrl : String
deriving DecidableEq

/-- Source `mergeSnapshotIdAndValue`: strips the root URL from the
reference path, splits on `/`, drops the first (`shift`) and last (`pop`)
segments, and returns the decoded value augmented with `id` and the inner
reference path. -/
def mergeSnapshotIdAndValue (pathName : String) (snapshot : DataSnapshot) :
    JsObj String :=
  let referencePath := strDrop snapshot.refUrl snapshot.rootUrl.length
  let pathNodes := splitOnSlash referencePath
  let pathNodes := pathNodes.tail
  let pathNodes := pathNodes.dropLast
  let newSnapshot := snapshot.val
  let newSnapshot := newSnapshot.set "id" snapshot.key
  newSnapshot.set pathName (joinWithSlash pathNodes)

/-- The `adapterOptions` object consulted by `buildPath` and
`deleteRecord`: an optional multi-path `include` fanout and an optional
explicit `path`. -/
structure AdapterOptions where
  include_ : Option (JsObj (Option String)) := none
  path : Option String := none
deriving DecidableEq

/-- Source `buildPath`: `adapterOptions.path/id` when the caller supplied a
path, else `parse(modelName)/id` where `parse` is
`camelize(pluralize(modelName))` (an external collaborator, kept as a
function parameter). -/
def buildPath (parse : String → String) (modelName id : String)
    (adapterOptions : Option AdapterOptions) : String :=
  match adapterOptions with
  | some opts =>
    match opts.path with
    | some p => p ++ "/" ++ id
    | none => parse modelName ++ "/" ++ id
  | none => parse modelName ++ "/" ++ id

/-- The fanout object assembled by source `deleteRecord` (paths mapped to
`null`, modelled as `none`, are tombstone writes; `include` entries keep
whatever value the caller put there).  Faithful to the source: the whole
construction, including the default `modelName/id` tombstone, sits inside
`if (adapterOptions)`. -/
def deleteRecordFanout (parse : String → String) (modelName id : String)
    (adapterOptions : Option AdapterOptions) : JsObj (Option String) :=
  let modelName := parse modelName
  let fanout : JsObj (Option String) := []
  match adapterOptions with
  | none => fanout
  | some opts =>
    let fanout :=
      match opts.include_ with
      | some inc => fanout.assign inc
      | none => fanout
    match opts.path with
    | some p => fanout.set (p ++ "/" ++ id) none
    | none => fanout.set (modelName ++ "/" ++ id) none

/-- Source `isTrackingRecordChanges`: `trackedRecords` has the model name
and that inner object has the id. -/
def isTrackingRecordChanges (trackedRecords : JsObj (JsObj String))
    (modelName id : String) : Bool :=
  match trackedRecords.get modelName with
  | some records => records.hasOwn id
  | none => false

/-- Source `trackRecord`: `trackedRecords[modelName] = {}` followed by
`trackedRecords[modelName][id] = parseFirebaseReferencePath(ref)` — the
per-model object is replaced wholesale. -/
def trackRecord (trackedRecords : JsObj (JsObj String))
    (modelName id : String) (ref : FirebaseRef) : JsObj (JsObj String) :=
  trackedRecords.set modelName (JsObj.set [] id (parseFirebaseReferencePath ref))

/-- The adapter state touched by `listenForRecordChanges`: the FastBoot
flag, the `trackedRecords` registry, and a log of the continuous `value`
listeners attached so far (as `(modelName, id)` pairs, in order; the
source never detaches these listeners). -/
structure AdapterState where
  inFastBoot : Bool
  trackedRecords : JsObj (JsObj String)
  valueListeners : List (String × String)
deriving DecidableEq

/-- Source `listenForRecordChanges`: outside FastBoot, if the record is not
yet tracked, track it and attach the continuous `value` listener on `ref`. -/
def listenForRecordChanges (s : AdapterState) (modelName id : String)
    (ref : FirebaseRef) : AdapterState :=
  if s.inFastBoot then s
  else if isTrackingRecordChanges s.trackedRecords modelName id then s
  else
    { s with
      trackedRecords := trackRecord s.trackedRecords modelName id ref,
      valueListeners := s.valueListeners ++ [(modelName, id)] }

/-- A query descriptor (`query` object) as consulted by
`_setupQuerySortingAndFiltering`.  The fields the function never touches
(`path`, `isReference`, `cacheId`) are omitted. -/
structure QueryParams where
  orderBy : Option String := none
  startAt : Option String := none
  endAt : Option String := none
  equalTo : Option String := none
  limitToFirst : Option Int := none
  limitToLast : Option Int := none
deriving DecidableEq

/-- One ordering / filtering method call chained onto a Firebase
reference. -/
inductive RefOp where
  | orderByKey
  | orderByValue
  | orderByChild (key : String)
  | startAt (value : String)
  | endAt (value : String)
  | equalTo (value : String)
  | limitToFirst (n : Int)
  | limitToLast (n : Int)
deriving DecidableEq

/-- The ordering call chosen by `_setupQuerySortingAndFiltering` (after
the `orderBy` default has been injected): `orderByKey` for `'id'`,
`orderByValue` for `'.value'`, else `orderByChild(orderBy)`. -/
def orderOp (query : QueryParams) : RefOp :=
  if query.orderBy = some "id" then RefOp.orderByKey
  else if query.orderBy = some ".value" then RefOp.orderByValue
  else RefOp.orderByChild (query.orderBy.getD "")

/-- The `isForcingLimitToOne` block of `_setupQuerySortingAndFiltering`:
if either limit property is present, set whichever wins (`limitToFirst`
preferred) to 1; otherwise introduce `limitToFirst = 1`. -/
def forceLimitToOne (query : QueryParams) : QueryParams :=
  if query.limitToFirst.isSome || query.limitToLast.isSome then
    if query.limitToFirst.isSome then { query with limitToFirst := some 1 }
    else { query with limitToLast := some 1 }
  else { query with limitToFirst := some 1 }

/-- The trailing `forEach` of `_setupQuerySortingAndFiltering`: apply
`startAt`, `endAt`, `equalTo`, `limitToFirst`, `limitToLast` — in that
fixed order — whenever present on the descriptor. -/
def filterOps (query : QueryParams) : List RefOp :=
  (match query.startAt with | some v => [RefOp.startAt v] | none => []) ++
  (match query.endAt with | some v => [RefOp.endAt v] | none => []) ++
  (match query.equalTo with | some v => [RefOp.equalTo v] | none => []) ++
  (match query.limitToFirst with | some n => [RefOp.limitToFirst n] | none => []) ++
  (match query.limitToLast with | some n => [RefOp.limitToLast n] | none => [])

/-- Source `_setupQuerySortingAndFiltering`.  The reference is modelled as
the list of method calls chained onto it so far; the function returns the
extended reference together with the descriptor, which the source mutates
in place (`orderBy` default and forced limit are written back into it). -/
def setupQuerySortingAndFiltering (ref : List RefOp) (query : QueryParams)
    (isForcingLimitToOne : Bool) : List RefOp × QueryParams :=
  let query := if query.orderBy = none then { query with orderBy := some "id" } else query
  let ref := ref ++ [orderOp query]
  let query := if isForcingLimitToOne then forceLimitToOne query else query
  (ref ++ filterOps query, query)

/-- The state touched by `_trackQuery`: the `trackedQueries` registry
(cache id → record array, record arrays modelled by a numeric identity)
and the log of record arrays whose `firebase.off()` detach-everything
operation has been invoked, in order. -/
structure QueryTrackerState where
  trackedQueries : JsObj Nat
  detachLog : List Nat
deriving DecidableEq

/-- Source `_trackQuery`: outside FastBoot, if an entry already exists for
`cacheId`, invoke its `firebase.off()` (stopping its child-added /
child-removed listeners), then store the new record array under
`cacheId`. -/
def trackQuery (isFastBoot : Bool) (s : QueryTrackerState) (cacheId : String)
    (recordArray : Nat) : QueryTrackerState :=
  if isFastBoot then s
  else
    let detachLog :=
      match s.trackedQueries.get cacheId with
      | some old => s.detachLog ++ [old]
      | none => s.detachLog
    { trackedQueries := s.trackedQueries.set cacheId recordArray,
      detachLog := detachLog }

/-- An event Firebase can deliver to the listeners registered by
`findRecord`: a `value` event carrying a snapshot (with its
`snapshot.exists()` status), or a listener error (the payload of the
error callback). -/
inductive FindEvent where
  | value (exists_ : Bool) (snap : DataSnapshot)
  | error (message : String)
deriving DecidableEq

/-- How an RSVP promise settles: `resolved` with the payload
`findRecord` produces, `resolvedUnit` for the bare `resolve()` of the
save path, or `rejected` with the wrapped error's message. -/
inductive Outcome where
  | resolved (payload : JsObj String)
  | resolvedUnit
  | rejected (message : String)
deriving DecidableEq

/-- The state of one `findRecord` invocation: the adapter registries, the
attachment status of the one-shot `onValue` listener, the promise cell,
and how many times `onValue` has run. -/
structure FindState where
  adapter : AdapterState
  onValueAttached : Bool
  settled : Option Outcome
  onValueInvocations : Nat
deriving DecidableEq

/-- RSVP promise settlement: the first `resolve`/`reject` wins, later
calls are ignored. -/
def settle (s : FindState) (o : Outcome) : FindState :=
  match s.settled with
  | some _ => s
  | none => { s with settled := some o }

/-- One event delivered during a `findRecord` invocation.  A `value`
event runs the `onValue` callback only while it is attached; the callback
mirrors the source: on `snapshot.exists()` it calls
`listenForRecordChanges`, then `ref.off('value', onValue)`, then resolves
with `mergeSnapshotIdAndValue(snapshot)`; otherwise it rejects with the
record-not-found error and leaves the listener attached.  The error
callback rejects with the wrapped error. -/
def findRecordProcessEvent (modelName id : String) (ref : FirebaseRef)
    (s : FindState) : FindEvent → FindState
  | FindEvent.value ex snap =>
    if s.onValueAttached then
      let s := { s with onValueInvocations := s.onValueInvocations + 1 }
      if ex then
        let s :=
          { s with
            adapter := listenForRecordChanges s.adapter modelName id ref,
            onValueAttached := false }
        settle s (Outcome.resolved (mergeSnapshotIdAndValue innerReferencePathName snap))
      else
        settle s (Outcome.rejected
          ("Record " ++ id ++ " for type " ++ modelName ++ " not found"))
    else s
  | FindEvent.error message =>
    if s.onValueAttached then settle s (Outcome.rejected message) else s

/-- The state right after `findRecord` registers its one-shot `value`
listener (`ref.on('value', onValue, errCb)`). -/
def findRecordInit (adapter : AdapterState) : FindState :=
  { adapter := adapter, onValueAttached := true, settled := none,
    onValueInvocations := 0 }

/-- A whole `findRecord` invocation observed under a given sequence of
delivered events. -/
def findRecordRun (modelName id : String) (ref : FirebaseRef)
    (adapter : AdapterState) (events : List FindEvent) : FindState :=
  events.foldl (findRecordProcessEvent modelName id ref) (findRecordInit adapter)

/-- A `DS.Snapshot` as consumed by the save path: its id, its
`adapterOptions`, and the multi-path fanout the external serializer
produced for it (`this.serialize(snapshot, ...)`). -/
structure SaveSnapshot where
  id : String
  adapterOptions : Option AdapterOptions := none
  serialized : JsObj (Option String)
deriving DecidableEq

/-- Source `updateRecord`: serialize (delegated — the serializer's output
rides on the snapshot), issue `firebase.update(serialized, cb)`; on error
reject with the wrapped error, otherwise build the record's reference via
`buildPath`/`child`, attach the live listener, and resolve.  `writeError`
injects the remote store's callback argument.  Returns the fanout
written, the adapter state, and the promise outcome. -/
def updateRecord (parse : String → String) (firebase : FirebaseRef)
    (adapter : AdapterState) (modelName : String) (snapshot : SaveSnapshot)
    (writeError : Option String) :
    JsObj (Option String) × AdapterState × Outcome :=
  let serializedSnapshot := snapshot.serialized
  match writeError with
  | some error => (serializedSnapshot, adapter, Outcome.rejected error)
  | none =>
    let id := snapshot.id
    let path := buildPath parse modelName id snapshot.adapterOptions
    let ref := firebase.child path
    (serializedSnapshot, listenForRecordChanges adapter modelName id ref,
      Outcome.resolvedUnit)

/-- Source `createRecord`: `return this.updateRecord(store, type, snapshot)`. -/
def createRecord (parse : String → String) (firebase : FirebaseRef)
    (adapter : AdapterState) (modelName : String) (snapshot : SaveSnapshot)
    (writeError : Option String) :
    JsObj (Option String) × AdapterState × Outcome :=
  updateRecord parse firebase adapter modelName snapshot writeError


/-! ## Concrete fixtures used by witnesses and counterexamples -/

/-- A stand-in for `camelize(pluralize(modelName))` at concrete inputs
(for the model names appearing in witnesses, pluralization is just an
appended `s`). -/
def parseModelNameS (modelName : String) : String := modelName ++ "s"

/-- The database root reference of the examples. -/
def rootRef : FirebaseRef :=
  { url := "https://db.example.com/", rootUrl := "https://db.example.com/" }

/-- Reference to record `a` of model `post`. -/
def refA : FirebaseRef := rootRef.child "posts/a"

/-- Reference to record `b` of model `post`. -/
def refB : FirebaseRef := rootRef.child "posts/b"

/-- A fresh adapter state in the browser environment. -/
def freshAdapterState : AdapterState :=
  { inFastBoot := false, trackedRecords := [], valueListeners := [] }

/-- The raw node of the spec's normalization example: key `p1`, value
`{name: "x"}`, living at path `users/u1/profile/p1`. -/
def exampleSnapshot : DataSnapshot :=
  { key := "p1", val := [("name", "x")],
    refUrl := "https://db.example.com/users/u1/profile/p1",
    rootUrl := "https://db.example.com/" }

/-- A snapshot of record `a` of model `post`. -/
def snapshotA : DataSnapshot :=
  { key := "a", val := [("title", "t")],
    refUrl := "https://db.example.com/posts/a",
    rootUrl := "https://db.example.com/" }

/-- A query tracker that already holds record array `1` under cache id
`q`. -/
def trackerS0 : QueryTrackerState :=
  { trackedQueries := [("q", 1)], detachLog := [] }

/-- A `trackedRecords` registry that already tracks id `b` of model
`post`. -/
def trackedBefore : JsObj (JsObj String) := [("post", [("b", "posts/b")])]

/-! ## Helper lemmas -/

theorem JsObj.get_set_self {V : Type} (o : JsObj V) (k : String) (v : V) :
    (o.set k v).get k = some v := by
  induction o with
  | nil => simp [JsObj.set, JsObj.get]
  | cons p rest ih =>
    obtain ⟨k', v'⟩ := p
    by_cases h : k' = k
    · simp [JsObj.set, JsObj.get, h]
    · simp [JsObj.set, JsObj.get, h, ih]

theorem JsObj.get_set_ne {V : Type} (o : JsObj V) (k k' : String) (v : V)
    (h : k' ≠ k) : (o.set k v).get k' = o.get k' := by
  induction o with
  | nil => simp [JsObj.set, JsObj.get, Ne.symm h]
  | cons p rest ih =>
    obtain ⟨k'', v''⟩ := p
    by_cases hk : k'' = k
    · subst hk
      have hne : ¬k'' = k' := fun hh => h hh.symm
      simp [JsObj.set, JsObj.get, hne]
    · simp [JsObj.set, JsObj.get, hk, ih]

theorem isTracking_trackRecord_self (tr : JsObj (JsObj String))
    (m i : String) (ref : FirebaseRef) :
    isTrackingRecordChanges (trackRecord tr m i ref) m i = true := by
  unfold isTrackingRecordChanges trackRecord
  rw [JsObj.get_set_self]
  simp [JsObj.hasOwn, JsObj.get, JsObj.set]

theorem isTracking_after_listen (s : AdapterState) (m i : String)
    (ref : FirebaseRef) (h : s.inFastBoot = false) :
    isTrackingRecordChanges
      (listenForRecordChanges s m i ref).trackedRecords m i = true := by
  unfold listenForRecordChanges
  rw [h]
  by_cases ht : isTrackingRecordChanges s.trackedRecords m i
  · simp [ht]
  · simp [ht, isTracking_trackRecord_self]

theorem forceLimitToOne_orderBy (q : QueryParams) :
    (forceLimitToOne q).orderBy = q.orderBy := by
  unfold forceLimitToOne
  split_ifs <;> rfl

/-! ## Claims -/

/-- Claim C1 (settled as a code bug): the source puts even the default
`modelName/id` tombstone inside `if (adapterOptions)`, so a
`deleteRecord` call without `adapterOptions` writes an empty fanout and
deletes nothing — for every parse function, model name and id the fanout
is `{}`, contradicting the claimed default tombstone.  The second
conjunct checks the part of the claim the code does satisfy: with
`adapterOptions = {include: {"a/1": null}, path: "b"}` and id `1` the
fanout contains both `a/1: null` and `b/1: null`. -/
theorem deleteRecord_fanout_empty_without_adapterOptions :
    (∀ (parse : String → String) (modelName id : String),
      deleteRecordFanout parse modelName id none = []) ∧
    deleteRecordFanout parseModelNameS "post" "1"
        (some { include_ := some [("a/1", none)], path := some "b" })
      = [("a/1", none), ("b/1", none)] :=
  ⟨fun _ _ _ => rfl, by decide⟩

/-- Claim C2: on the single-result query path (`isForcingLimitToOne`
set), the descriptor is forced to exactly one limit of value 1 — a
descriptor with neither limit gains `limitToFirst = 1`; one with only
`limitToLast` gets `limitToLast = 1` and no `limitToFirst`; one with
`limitToFirst` gets `limitToFirst = 1` with `limitToLast` untouched —
and the returned (in the source: in-place mutated) descriptor holds the
forced value. -/
theorem setupQuery_forceSingleResult (ref : List RefOp) (q : QueryParams) :
    (q.limitToFirst = none → q.limitToLast = none →
      (setupQuerySortingAndFiltering ref q true).2.limitToFirst = some 1 ∧
      (setupQuerySortingAndFiltering ref q true).2.limitToLast = none) ∧
    (q.limitToFirst = none → q.limitToLast.isSome = true →
      (setupQuerySortingAndFiltering ref q true).2.limitToLast = some 1 ∧
      (setupQuerySortingAndFiltering ref q true).2.limitToFirst = none) ∧
    (q.limitToFirst.isSome = true →
      (setupQuerySortingAndFiltering ref q true).2.limitToFirst = some 1 ∧
      (setupQuerySortingAndFiltering ref q true).2.limitToLast = q.limitToLast) := by
  obtain ⟨ob, sa, ea, ev, lf, ll⟩ := q
  cases ob <;> cases lf <;> cases ll <;>
    refine ⟨fun h1 h2 => ?_, fun h1 h2 => ?_, fun h1 => ?_⟩ <;>
    simp_all [setupQuerySortingAndFiltering, forceLimitToOne]

/-- Witness for C2 at a concrete descriptor `{limitToLast: 5}`: the
forced descriptor keeps `limitToLast` (now 1) and gains no
`limitToFirst`. -/
theorem setupQuery_forceSingleResult_witness :
    (setupQuerySortingAndFiltering [] { limitToLast := some (5 : Int) } true).2.limitToLast
      = some 1 ∧
    (setupQuerySortingAndFiltering [] { limitToLast := some (5 : Int) } true).2.limitToFirst
      = none := by
  have h := setupQuery_forceSingleResult [] { limitToLast := some (5 : Int) }
  exact h.2.1 rfl rfl

/-- Claim C7: `_setupQuerySortingAndFiltering` picks `orderByKey` when
`orderBy` is absent or `'id'`, `orderByValue` when it is `'.value'`, and
`orderByChild(orderBy)` otherwise; the ordering call is the first method
chained onto the reference, a descriptor without `orderBy` therefore
never resolves to value or child ordering, and such a descriptor is
mutated to record the default `orderBy = 'id'`. -/
theorem setupQuery_ordering (q : QueryParams) (force : Bool) :
    ((q.orderBy = none ∨ q.orderBy = some "id") →
      (setupQuerySortingAndFiltering [] q force).1.head? = some RefOp.orderByKey) ∧
    (q.orderBy = some ".value" →
      (setupQuerySortingAndFiltering [] q force).1.head? = some RefOp.orderByValue) ∧
    (∀ s, q.orderBy = some s → s ≠ "id" → s ≠ ".value" →
      (setupQuerySortingAndFiltering [] q force).1.head?
        = some (RefOp.orderByChild s)) ∧
    (q.orderBy = none →
      (setupQuerySortingAndFiltering [] q force).2.orderBy = some "id") := by
  refine ⟨?_, ?_, ?_, ?_⟩
  · rintro (ho | ho) <;> simp [setupQuerySortingAndFiltering, orderOp, ho]
  · intro ho
    simp [setupQuerySortingAndFiltering, orderOp, ho]
  · intro s ho hs1 hs2
    simp [setupQuerySortingAndFiltering, orderOp, ho, hs1, hs2]
  · intro ho
    cases force <;>
      simp [setupQuerySortingAndFiltering, forceLimitToOne_orderBy, ho]

/-- Witness for C7 at the empty descriptor: key ordering is chosen and
the descriptor records `orderBy = 'id'`. -/
theorem setupQuery_ordering_witness :
    (setupQuerySortingAndFiltering [] ({} : QueryParams) false).1.head?
      = some RefOp.orderByKey ∧
    (setupQuerySortingAndFiltering [] ({} : QueryParams) false).2.orderBy
      = some "id" :=
  ⟨(setupQuery_ordering {} false).1 (Or.inl rfl),
    (setupQuery_ordering {} false).2.2.2 rfl⟩

/-- Claim C3 is refuted as a blanket invariant: starting from a fresh
adapter, attaching the record listener for `(post, a)`, then `(post, b)`,
then `(post, a)` again attaches TWO continuous listeners for `(post, a)`
— `trackRecord` wiped the `(post, a)` entry when `(post, b)` was
tracked, so "at most one live listener of a given type per key at any
time" does not hold. -/
theorem listener_per_key_invariant_counterexample :
    ((listenForRecordChanges (listenForRecordChanges
        (listenForRecordChanges freshAdapterState "post" "a" refA)
        "post" "b" refB) "post" "a" refA).valueListeners.count ("post", "a")) = 2 := by
  decide

/-- Claim C3 as amended: two consecutive find-one calls for the same
`(modelName, id)` attach exactly one continuous listener — the second
`listenForRecordChanges` is a no-op because the record is already
tracked — and a first call on an untracked record (outside FastBoot)
attaches exactly one listener.  (The stronger at-most-one-per-key-at-
any-time invariant fails; see the counterexample.) -/
theorem listenForRecordChanges_idempotent_per_pair
    (s : AdapterState) (m i : String) (r r' : FirebaseRef) :
    listenForRecordChanges (listenForRecordChanges s m i r) m i r'
      = listenForRecordChanges s m i r ∧
    (s.inFastBoot = false →
      isTrackingRecordChanges s.trackedRecords m i = false →
      (listenForRecordChanges s m i r).valueListeners
        = s.valueListeners ++ [(m, i)]) := by
  constructor
  · cases hf : s.inFastBoot
    · cases ht : isTrackingRecordChanges s.trackedRecords m i
      · have h1 : listenForRecordChanges s m i r
            = { s with
                trackedRecords := trackRecord s.trackedRecords m i r,
                valueListeners := s.valueListeners ++ [(m, i)] } := by
          simp [listenForRecordChanges, hf, ht]
        rw [h1]
        simp [listenForRecordChanges, hf, isTracking_trackRecord_self]
      · simp [listenForRecordChanges, hf, ht]
    · simp [listenForRecordChanges, hf]
  · intro hf ht
    simp [listenForRecordChanges, hf, ht]

/-- Witness for the amended C3 at a fresh adapter: the second call
changes nothing and exactly one `(post, a)` listener is attached. -/
theorem listenForRecordChanges_idempotent_per_pair_witness :
    listenForRecordChanges
        (listenForRecordChanges freshAdapterState "post" "a" refA) "post" "a" refA
      = listenForRecordChanges freshAdapterState "post" "a" refA ∧
    (listenForRecordChanges freshAdapterState "post" "a" refA).valueListeners
      = [("post", "a")] := by
  have h := listenForRecordChanges_idempotent_per_pair
    freshAdapterState "post" "a" refA refA
  refine ⟨h.1, ?_⟩
  rw [h.2 rfl rfl]
  rfl

/-- Claim C4 is refuted on its example: for a node at path
`users/u1/profile/p1` the normalizer strips the root URL and then
discards only the first (`users`) and last (`p1`) segments, yielding
inner reference path `u1/profile`, not the claimed `profile`. -/
theorem mergeSnapshot_inner_path_counterexample :
    (mergeSnapshotIdAndValue innerReferencePathName exampleSnapshot).get
        innerReferencePathName = some "u1/profile" ∧
    ("u1/profile" : String) ≠ "profile" := by
  constructor
  · decide
  · decide

/-- Claim C4 as amended: the normalizer returns the snapshot's decoded
value object with every other field intact, augmented with
`id = snapshot.key` and, under the inner-path property name, the
reference path stripped of the root prefix with first and last segments
discarded and the rest joined with `/`; for the node at
`users/u1/profile/p1` this yields `id = p1` and inner reference path
`u1/profile`. -/
theorem mergeSnapshotIdAndValue_augments (pathName : String)
    (snap : DataSnapshot) (h : pathName ≠ "id") :
    ((mergeSnapshotIdAndValue pathName snap).get "id" = some snap.key ∧
      (mergeSnapshotIdAndValue pathName snap).get pathName
        = some (joinWithSlash
            (((splitOnSlash (strDrop snap.refUrl snap.rootUrl.length)).tail).dropLast)) ∧
      (∀ k, k ≠ "id" → k ≠ pathName →
        (mergeSnapshotIdAndValue pathName snap).get k = snap.val.get k)) ∧
    (mergeSnapshotIdAndValue innerReferencePathName exampleSnapshot).get "id"
      = some "p1" ∧
    (mergeSnapshotIdAndValue innerReferencePathName exampleSnapshot).get
        innerReferencePathName = some "u1/profile" := by
  refine ⟨⟨?_, ?_, ?_⟩, by decide, by decide⟩
  · simp only [mergeSnapshotIdAndValue]
    rw [JsObj.get_set_ne _ _ _ _ (Ne.symm h), JsObj.get_set_self]
  · simp only [mergeSnapshotIdAndValue]
    rw [JsObj.get_set_self]
  · intro k hk1 hk2
    simp only [mergeSnapshotIdAndValue]
    rw [JsObj.get_set_ne _ _ _ _ hk2, JsObj.get_set_ne _ _ _ _ hk1]

/-- Witness for the amended C4 at the example node. -/
theorem mergeSnapshotIdAndValue_augments_witness :
    (mergeSnapshotIdAndValue innerReferencePathName exampleSnapshot).get "id"
      = some "p1" ∧
    (mergeSnapshotIdAndValue innerReferencePathName exampleSnapshot).get "name"
      = some "x" := by
  have h := mergeSnapshotIdAndValue_augments innerReferencePathName
    exampleSnapshot (by decide)
  exact ⟨h.2.1, h.1.2.2 "name" (by decide) (by decide)⟩

/-- Claim C5: `_trackQuery` on a cache id that already has an entry first
invokes the previous record array's `firebase.off()` (its detach
operation) and then stores the new record array under that cache id,
leaving every other cache id untouched — so at most one live
subscription exists per cache identifier. -/
theorem trackQuery_detaches_previous (s : QueryTrackerState) (cid : String)
    (old arr : Nat) (h : s.trackedQueries.get cid = some old) :
    (trackQuery false s cid arr).detachLog = s.detachLog ++ [old] ∧
    (trackQuery false s cid arr).trackedQueries.get cid = some arr ∧
    (∀ cid', cid' ≠ cid →
      (trackQuery false s cid arr).trackedQueries.get cid'
        = s.trackedQueries.get cid') := by
  refine ⟨?_, ?_, ?_⟩
  · simp [trackQuery, h]
  · simp [trackQuery, h, JsObj.get_set_self]
  · intro cid' hne
    simp [trackQuery, h, JsObj.get_set_ne _ _ _ _ hne]

/-- Witness for C5: replacing the query tracked under `q` detaches the
old record array `1` and stores the new record array `2`. -/
theorem trackQuery_detaches_previous_witness :
    (trackQuery false trackerS0 "q" 2).detachLog = [1] ∧
    (trackQuery false trackerS0 "q" 2).trackedQueries.get "q" = some 2 := by
  have h := trackQuery_detaches_previous trackerS0 "q" 1 2 (by decide)
  refine ⟨?_, h.2.1⟩
  rw [h.1]
  rfl

/-- Claim C6: `trackRecord` replaces the whole per-model map — afterwards
the id just passed is tracked, any other id previously tracked under the
same model name is no longer tracked, and the per-model object maps the
new id to the handle's path with the root URL prefix stripped. -/
theorem trackRecord_replaces_model_entry (tr : JsObj (JsObj String))
    (m i i' : String) (ref : FirebaseRef) (h : i' ≠ i) :
    isTrackingRecordChanges (trackRecord tr m i ref) m i = true ∧
    isTrackingRecordChanges (trackRecord tr m i ref) m i' = false ∧
    (trackRecord tr m i ref).get m
      = some [(i, strDrop ref.url ref.rootUrl.length)] := by
  refine ⟨isTracking_trackRecord_self tr m i ref, ?_, ?_⟩
  · unfold isTrackingRecordChanges trackRecord
    rw [JsObj.get_set_self]
    simp [JsObj.hasOwn, JsObj.get, JsObj.set, Ne.symm h]
  · unfold trackRecord
    rw [JsObj.get_set_self]
    rfl

/-- Witness for C6: after re-tracking model `post` with id `a`, the
previously tracked id `b` is no longer tracked. -/
theorem trackRecord_replaces_model_entry_witness :
    isTrackingRecordChanges (trackRecord trackedBefore "post" "a" refA)
      "post" "a" = true ∧
    isTrackingRecordChanges (trackRecord trackedBefore "post" "a" refA)
      "post" "b" = false := by
  have h := trackRecord_replaces_model_entry trackedBefore "post" "a" "b" refA
    (by decide)
  exact ⟨h.1, h.2.1⟩

/-- Claim C8: a `findRecord` invocation — (a) on a `value` event whose
node exists, resolves with the normalized payload, with the one-shot
listener detached and (outside FastBoot) the continuous listener
tracked; (b) on a `value` event whose node does not exist, rejects with
the record-not-found error naming the id and model; (c) on a remote
error, rejects with the wrapped error; and (d) once the promise is
settled no later event can change the settlement, so the promise settles
exactly once per invocation. -/
theorem findRecord_settlement (m i : String) (ref : FirebaseRef)
    (a : AdapterState) (snap : DataSnapshot) (msg : String) :
    ((findRecordRun m i ref a [FindEvent.value true snap]).settled
        = some (Outcome.resolved
            (mergeSnapshotIdAndValue innerReferencePathName snap)) ∧
      (findRecordRun m i ref a [FindEvent.value true snap]).onValueAttached
        = false ∧
      (a.inFastBoot = false →
        isTrackingRecordChanges
          (findRecordRun m i ref a [FindEvent.value true snap]).adapter.trackedRecords
          m i = true)) ∧
    (findRecordRun m i ref a [FindEvent.value false snap]).settled
      = some (Outcome.rejected
          ("Record " ++ i ++ " for type " ++ m ++ " not found")) ∧
    (findRecordRun m i ref a [FindEvent.error msg]).settled
      = some (Outcome.rejected msg) ∧
    (∀ (s : FindState) (o : Outcome) (e : FindEvent), s.settled = some o →
      (findRecordProcessEvent m i ref s e).settled = some o) := by
  refine ⟨⟨?_, ?_, ?_⟩, ?_, ?_, ?_⟩
  · simp [findRecordRun, findRecordProcessEvent, findRecordInit, settle]
  · simp [findRecordRun, findRecordProcessEvent, findRecordInit, settle]
  · intro hf
    simp [findRecordRun, findRecordProcessEvent, findRecordInit, settle,
      isTracking_after_listen _ _ _ _ hf]
  · simp [findRecordRun, findRecordProcessEvent, findRecordInit, settle]
  · simp [findRecordRun, findRecordProcessEvent, findRecordInit, settle]
  · intro s o e h
    cases e with
    | value ex snap' =>
      by_cases ha : s.onValueAttached <;> cases ex <;>
        simp [findRecordProcessEvent, settle, ha, h]
    | error msg' =>
      by_cases ha : s.onValueAttached <;>
        simp [findRecordProcessEvent, settle, ha, h]

/-- Witness for C8: fetching the existing record `a` of model `post`
from a fresh browser adapter resolves with the normalized payload and
leaves the record tracked. -/
theorem findRecord_settlement_witness :
    (findRecordRun "post" "a" refA freshAdapterState
        [FindEvent.value true snapshotA]).settled
      = some (Outcome.resolved
          (mergeSnapshotIdAndValue innerReferencePathName snapshotA)) ∧
    isTrackingRecordChanges
      (findRecordRun "post" "a" refA freshAdapterState
        [FindEvent.value true snapshotA]).adapter.trackedRecords
      "post" "a" = true := by
  have h := findRecord_settlement "post" "a" refA freshAdapterState snapshotA "e"
  exact ⟨h.1.1, h.1.2.2 rfl⟩

/-- Claim C9: `createRecord` simply returns `updateRecord` on the same
input — the same serialized write, the same listener attachment on
success, the same error wrapping. -/
theorem createRecord_eq_updateRecord (parse : String → String)
    (firebase : FirebaseRef) (adapter : AdapterState) (modelName : String)
    (snapshot : SaveSnapshot) (writeError : Option String) :
    createRecord parse firebase adapter modelName snapshot writeError
      = updateRecord parse firebase adapter modelName snapshot writeError := rfl

/-- Claim C10: when the one-shot `value` callback fires with a
non-existent node, the promise rejects but `ref.off('value', onValue)`
is not invoked — the callback stays attached (it only ran once so far),
and a later `value` event at that path re-invokes it (invocation count
2) without changing the settled rejection. -/
theorem findRecord_notFound_leaves_listener_attached (m i : String)
    (ref : FirebaseRef) (a : AdapterState) (snap snap' : DataSnapshot)
    (ex : Bool) :
    (findRecordRun m i ref a [FindEvent.value false snap]).onValueAttached
      = true ∧
    (findRecordRun m i ref a [FindEvent.value false snap]).onValueInvocations
      = 1 ∧
    (findRecordProcessEvent m i ref
        (findRecordRun m i ref a [FindEvent.value false snap])
        (FindEvent.value ex snap')).onValueInvocations = 2 ∧
    (findRecordProcessEvent m i ref
        (findRecordRun m i ref a [FindEvent.value false snap])
        (FindEvent.value ex snap')).settled
      = (findRecordRun m i ref a [FindEvent.value false snap]).settled := by
  cases ex <;>
    simp [findRecordRun, findRecordProcessEvent, findRecordInit, settle]
